import Mathlib

/-!
Verification development for the mxmda gateway (session orchestration,
event-to-mail transformation, key reconciliation and CLI command layer).
Python strings are modelled as `List Char`; raised exceptions are modelled
with `Except`/`Option` error components; performed side effects are modelled
as explicit action traces.
-/

/-- Whitespace characters stripped by Python `str.strip()` (ASCII subset). -/
def isPySpace (c : Char) : Bool :=
  c = ' ' || c = '\t' || c = '\n' || c = '\r' || c = '\x0b' || c = '\x0c'

/-- Python `s.strip()`: drop leading and trailing whitespace. -/
def pyStrip (s : List Char) : List Char :=
  (((s.dropWhile isPySpace).reverse).dropWhile isPySpace).reverse

/-- `text.split("\n", 1)[0]` applied to the stripped body (app.py lines 207-208):
the first line of the stripped message text. -/
def topline (body : List Char) : List Char :=
  (pyStrip body).takeWhile (fun c => c ≠ '\n')

/-- The string actually passed to `add_header("Subject", topline)` at
app.py line 213: the full first line, untruncated. -/
def event_to_email_subject (body : List Char) : List Char :=
  topline body

/-- The local variable `subject` computed at app.py line 210
(`topline if len(topline) < 70 else topline[0:67] + '...'`); it is computed
and then never used by `event_to_email`. -/
def subject_truncation (body : List Char) : List Char :=
  let t := topline body
  if t.length < 70 then t else t.take 67 ++ ['.', '.', '.']

/-- Python `s.replace(a, b, 1)` on a character list: replace only the first
occurrence of `a` by `b`. -/
def replaceFirst : List Char → Char → Char → List Char
  | [], _, _ => []
  | c :: cs, a, b => if c = a then b :: cs else c :: replaceFirst cs a b

/-- The sigil characters accepted by `mxid_to_email` (app.py line 202). -/
def sigils : List Char := ['@', '!', '#']

/-- app.py lines 201-204: raise `ValueError("Invalid mxid ...")` unless the
identifier starts with `@`, `!` or `#`; otherwise drop the sigil and replace
the first `:` with `@`. -/
def mxid_to_email (mxid : List Char) : Except String (List Char) :=
  match mxid with
  | [] => Except.error "Invalid mxid"
  | c :: rest =>
    if c ∈ sigils then Except.ok (replaceFirst rest ':' '@')
    else Except.error "Invalid mxid"

/-- No `'@'` occurs before the first `':'` of the list (the condition under
which replacing the first colon by `'@'` is reversible). -/
def noAtBeforeColon : List Char → Bool
  | [] => true
  | c :: cs => if c = ':' then true else (c ≠ '@' && noAtBeforeColon cs)

/-- The five logging levels DEBUG, INFO, WARNING, ERROR, CRITICAL
(app.py line 133), by their numeric `logging` values. -/
def levels : List Nat := [10, 20, 30, 40, 50]

/-- app.py line 134: `levels[min(len(levels), max(0, n))]`; `none` models the
`IndexError` raised when the index is past the end of the list. -/
def log_level (n : Int) : Option Nat :=
  levels.get? (min (levels.length : Int) (max 0 n)).toNat

/-- Key-maintenance calls the sync response callback can issue
(matrix.py lines 148-164). -/
inductive KeyCall where
  | keys_upload
  | keys_query
  | keys_claim
deriving DecidableEq, Repr

/-- matrix.py lines 148-164, the `syncer` closure run after each sync round:
each of the three readiness flags is tested by its own `if` (no `elif`, no
short-circuiting across flags). The claim branch first evaluates
`client.get_users_for_key_claiming()`, where the name `client` is undefined
in that scope (the rest of the module uses `app.client`), so reaching it
raises `NameError` before `keys_claim` is called. The result pairs the calls
actually issued with the exception, if any. -/
def sync_round (up q cl : Bool) : List KeyCall × Option String :=
  let a1 := if up then [KeyCall.keys_upload] else []
  let a2 := if q then [KeyCall.keys_query] else []
  if cl then (a1 ++ a2, some "NameError: name client is not defined")
  else (a1 ++ a2, none)

/-- Side effects of message-event handling. -/
inductive MsgAct where
  | read_receipt
  | write_mail
deriving DecidableEq, Repr

/-- matrix.py lines 137-146, `msg_callback`: wraps a handler so that
`asyncio.gather` awaits both the read-receipt send and the handler before the
dispatch completes. A handler is modelled by the action list it performs. -/
def msg_callback_acts (handler : List MsgAct) : List MsgAct :=
  MsgAct.read_receipt :: handler

/-- app.py lines 228-234: the `deliverer` closure produced by
`write_event_to_maildir` writes one mail file per event. -/
def deliverer_acts : List MsgAct := [MsgAct.write_mail]

/-- app.py line 190: `Service.__init__` registers
`write_event_to_maildir(self)` with `add_event_callback` directly — the
deliverer is not wrapped in `msg_callback`, so these are the only actions
performed per inbound `RoomMessageText` event. -/
def service_message_acts : List MsgAct := deliverer_acts

/-- The persisted credential triple (device-state file contents). -/
structure Cred where
  access_token : String
  device_id : String
  user_id : String
deriving DecidableEq, Repr

/-- Awaited effects of `Client.start` (matrix.py lines 100-118). -/
inductive SessionAct where
  | login_raw
  | write_device_file (c : Cred)
  | sync_full
deriving DecidableEq, Repr

/-- matrix.py lines 61-65: `Client.__init__` sets `self.access_token` from the
stored device when one is present; otherwise the inherited default is the
empty string. -/
def client_init_token (device : Option Cred) : String :=
  match device with
  | some d => d.access_token
  | none => ""

/-- matrix.py lines 100-109, `Client.login`: call `login_raw`; on a
non-`LoginResponse` raise `MatrixAuthError`, otherwise persist the credential
triple synchronously via `app.write_device`. `resp = some c` models a
successful login yielding triple `c`; `none` models a failure response. -/
def client_login (resp : Option Cred) : List SessionAct × Option String :=
  match resp with
  | some c => ([SessionAct.login_raw, SessionAct.write_device_file c], none)
  | none => ([SessionAct.login_raw], some "MatrixAuthError")

/-- matrix.py lines 111-118, `Client.start`: log in only when
`self.access_token` is falsy, then run the priming full-state sync. -/
def client_start (device : Option Cred) (resp : Option Cred) :
    List SessionAct × Option String :=
  if client_init_token device = "" then
    match client_login resp with
    | (acts, none) => (acts ++ [SessionAct.sync_full], none)
    | (acts, some e) => (acts, some e)
  else ([SessionAct.sync_full], none)

/-- Transmissions the verification-start handler can perform. -/
inductive VerifyAct where
  | accept_key_verification
  | to_device_share_key
  | to_device_cancel
deriving DecidableEq, Repr

/-- matrix.py lines 182-193, the `start` handler of `key_verify`: when
`"emoji"` is absent from the proposed SAS method set it logs and returns
without transmitting anything; otherwise it accepts the verification and then
sends the key-sharing payload (transport errors are logged, not re-raised). -/
def key_verify_start (methods : List String) : List VerifyAct :=
  if "emoji" ∈ methods then
    [VerifyAct.accept_key_verification, VerifyAct.to_device_share_key]
  else []

/-- The attribute names present on the argparse namespace produced for the
`msg` subcommand (app.py lines 20-130): global options plus the subcommand's
`--target` option (dest `target`) and the `msg` positional. -/
def msg_namespace_attrs : List String :=
  ["config_file", "device_file", "nio_dir", "log_level_incr",
   "log_level_decr", "log_level", "command", "target", "msg"]

/-- Python attribute access on an argparse namespace: `AttributeError` when
the attribute was never set. -/
def ns_getattr (attrs : List String) (a : String) : Except String Unit :=
  if a ∈ attrs then Except.ok () else Except.error ("AttributeError: " ++ a)

/-- The transmission the msg command is supposed to perform. -/
inductive SendAct where
  | room_send
deriving DecidableEq, Repr

/-- app.py lines 242-253: `MsgCommand.__init__` evaluates `args.room`
(line 245) before `start` can call `self.client.msg`; only if that attribute
access succeeds is the single message event transmitted. -/
def msg_command_run : Except String (List SendAct) :=
  match ns_getattr msg_namespace_attrs "room" with
  | Except.error e => Except.error e
  | Except.ok _ => Except.ok [SendAct.room_send]

/-- The two Application attributes relevant to device state: `device` (set by
`load_device`) and `state` (set by `write_device`). -/
structure AppDevState where
  device : Option Cred
  state : Option Cred
deriving DecidableEq, Repr

/-- File side effect of `Application.write_device`. -/
inductive FileAct where
  | dump_device_file (c : Cred)
deriving DecidableEq, Repr

/-- app.py lines 163-173, `Application.write_device`: dump the credential
triple to the device file and assign it to `self.state`; `self.device` is not
assigned. -/
def write_device (app : AppDevState) (c : Cred) : AppDevState × List FileAct :=
  (AppDevState.mk app.device (some c), [FileAct.dump_device_file c])

/-- C1: at a message body whose first line has exactly 70 characters, the
Subject header produced by `event_to_email` is the full 70-character line,
not the truncation to 67 characters plus `...` that the claim (and the
unused `subject` local) prescribes. -/
theorem subject_header_not_truncated :
    event_to_email_subject (List.replicate 70 'a') = List.replicate 70 'a' ∧
    subject_truncation (List.replicate 70 'a') =
      List.replicate 67 'a' ++ ['.', '.', '.'] ∧
    event_to_email_subject (List.replicate 70 'a') ≠
      subject_truncation (List.replicate 70 'a') := by
  refine ⟨by decide, by decide, by decide⟩

/-- C2: the running service writes the mail file for a message event but
attempts no read receipt, because `Service.__init__` registers the maildir
deliverer directly; the `msg_callback` wrapper, which would perform and await
both actions, is never applied to it. -/
theorem service_mail_without_read_receipt :
    MsgAct.write_mail ∈ service_message_acts ∧
    MsgAct.read_receipt ∉ service_message_acts ∧
    msg_callback_acts deliverer_acts =
      [MsgAct.read_receipt, MsgAct.write_mail] := by
  decide

/-- C3: a round with no readiness flag set issues no maintenance call, but a
round with all three flags set issues only the upload and the query calls and
then raises `NameError` (undefined name `client`) before `keys_claim` can be
issued — not the three calls the claim states. -/
theorem sync_round_keys_claim_crash :
    sync_round false false false = ([], none) ∧
    sync_round true true true =
      ([KeyCall.keys_upload, KeyCall.keys_query],
       some "NameError: name client is not defined") ∧
    KeyCall.keys_claim ∉ (sync_round true true true).1 := by
  decide

/-- C4: for a non-empty identifier whose head is a recognized sigil the
conversion strips the sigil and replaces only the first `:` with `@`; for any
other head, and for the empty identifier, it fails with the invalid-identifier
error. -/
theorem mxid_to_email_spec (c : Char) (rest : List Char) :
    (c ∈ sigils →
      mxid_to_email (c :: rest) = Except.ok (replaceFirst rest ':' '@')) ∧
    (c ∉ sigils →
      mxid_to_email (c :: rest) = Except.error "Invalid mxid") ∧
    mxid_to_email [] = Except.error "Invalid mxid" := by
  refine ⟨fun h => ?_, fun h => ?_, rfl⟩
  · simp [mxid_to_email, h]
  · simp [mxid_to_email, h]

/-- C4 witness: evaluation at `"@a:b.c"` (sigil case) and `"xy"` (no sigil). -/
theorem mxid_to_email_spec_witness :
    mxid_to_email ['@', 'a', ':', 'b', '.', 'c'] =
      Except.ok ['a', '@', 'b', '.', 'c'] ∧
    mxid_to_email ['x', 'y'] = Except.error "Invalid mxid" := by
  constructor
  · have h := (mxid_to_email_spec '@' ['a', ':', 'b', '.', 'c']).1 (by decide)
    rw [h]; rfl
  · exact (mxid_to_email_spec 'x' ['y']).2.1 (by decide)

/-- C6: a session whose stored credential has a non-empty access token never
performs the login call, and a session with no stored credential performs
exactly one login, persists the obtained triple to the device-state file, and
only then runs the priming full-state sync — all before `start` returns. -/
theorem session_login_invariant (d c : Cred) (resp : Option Cred)
    (h : d.access_token ≠ "") :
    SessionAct.login_raw ∉ (client_start (some d) resp).1 ∧
    client_start none (some c) =
      ([SessionAct.login_raw, SessionAct.write_device_file c,
        SessionAct.sync_full], none) := by
  constructor
  · simp [client_start, client_init_token, h]
  · simp [client_start, client_init_token, client_login]

/-- C6 witness: evaluation at a concrete non-empty credential and a concrete
login result. -/
theorem session_login_invariant_witness :
    SessionAct.login_raw ∉
      (client_start (some (Cred.mk "tok" "dev" "usr")) none).1 ∧
    client_start none (some (Cred.mk "t2" "d2" "u2")) =
      ([SessionAct.login_raw, SessionAct.write_device_file
          (Cred.mk "t2" "d2" "u2"), SessionAct.sync_full], none) :=
  session_login_invariant (Cred.mk "tok" "dev" "usr") (Cred.mk "t2" "d2" "u2")
    none (by decide)

/-- C7: when the proposed SAS method set lacks `"emoji"` the start handler
transmits nothing (no accept, no key share, no cancel); when it contains
`"emoji"` the handler accepts the verification and then sends the key-sharing
payload. -/
theorem key_verify_start_spec (methods : List String) :
    ("emoji" ∉ methods → key_verify_start methods = []) ∧
    ("emoji" ∈ methods → key_verify_start methods =
      [VerifyAct.accept_key_verification, VerifyAct.to_device_share_key]) := by
  refine ⟨fun h => ?_, fun h => ?_⟩
  · simp [key_verify_start, h]
  · simp [key_verify_start, h]

/-- C7 witness: evaluation at `["decimal"]` and at `["emoji"]`. -/
theorem key_verify_start_witness :
    key_verify_start ["decimal"] = [] ∧
    key_verify_start ["emoji"] =
      [VerifyAct.accept_key_verification, VerifyAct.to_device_share_key] :=
  ⟨(key_verify_start_spec ["decimal"]).1 (by decide),
   (key_verify_start_spec ["emoji"]).2 (by decide)⟩

/-- C8: running the msg command fails with `AttributeError: room` before any
message event is transmitted: `MsgCommand.__init__` reads `args.room`, but
the parser stores the destination under `target`, and no `room` attribute
exists on the namespace. -/
theorem msg_command_attribute_error :
    msg_command_run = Except.error "AttributeError: room" ∧
    "target" ∈ msg_namespace_attrs ∧
    "room" ∉ msg_namespace_attrs :=
  ⟨rfl, by decide, by decide⟩

/-- C9: the verbosity mapping indexes past the end of the five-element level
list at `n = 5` (reachable as the default 2 plus three `-q` flags), raising
`IndexError` instead of returning a level; `n = 0` and `n = 4` still map to
defined levels. -/
theorem log_level_out_of_range :
    log_level 5 = none ∧ log_level 0 = some 10 ∧ log_level 4 = some 50 := by
  decide

/-- C10 counterexample: on a first run (`load_device` found no file, so
`device = none`), after `write_device` persists a concrete triple the
Application's `device` attribute does not equal the persisted triple. -/
theorem write_device_device_unchanged_cex :
    (write_device (AppDevState.mk none none) (Cred.mk "t" "d" "u")).1.device ≠
      some (Cred.mk "t" "d" "u") := by
  decide

/-- C10 amended: `write_device` dumps the triple to the device file and
stores it in the `state` attribute; the `device` attribute read at startup is
left unchanged. -/
theorem write_device_updates_state (app : AppDevState) (c : Cred) :
    (write_device app c).1.state = some c ∧
    (write_device app c).1.device = app.device ∧
    (write_device app c).2 = [FileAct.dump_device_file c] :=
  ⟨rfl, rfl, rfl⟩

/-- C10 witness: evaluation of the amended statement at a concrete state and
triple. -/
theorem write_device_updates_state_witness :
    (write_device (AppDevState.mk none none) (Cred.mk "t" "d" "u")).1.state =
      some (Cred.mk "t" "d" "u") ∧
    (write_device (AppDevState.mk none none) (Cred.mk "t" "d" "u")).1.device =
      (AppDevState.mk none (none : Option Cred)).device ∧
    (write_device (AppDevState.mk none none) (Cred.mk "t" "d" "u")).2 =
      [FileAct.dump_device_file (Cred.mk "t" "d" "u")] :=
  write_device_updates_state (AppDevState.mk none none) (Cred.mk "t" "d" "u")

/-- C5 counterexample: two distinct well-formed identifiers (both contain a
recognized sigil followed by text with a colon) convert to the same output,
so the conversion is not injective on well-formed inputs. -/
theorem mxid_to_email_not_injective :
    (['@', 'a', ':', 'b'] : List Char) ≠ ['!', 'a', ':', 'b'] ∧
    mxid_to_email ['@', 'a', ':', 'b'] = mxid_to_email ['!', 'a', ':', 'b'] :=
  ⟨by decide, rfl⟩

theorem noAtBeforeColon_cons (c : Char) (cs : List Char)
    (h : noAtBeforeColon (c :: cs) = true) (hc : c ≠ ':') :
    c ≠ '@' ∧ noAtBeforeColon cs = true := by
  simp [noAtBeforeColon, hc] at h
  exact h

theorem replaceFirst_colon_inj (r1 : List Char) :
    ∀ r2 : List Char, noAtBeforeColon r1 = true → noAtBeforeColon r2 = true →
      ':' ∈ r1 → ':' ∈ r2 →
      replaceFirst r1 ':' '@' = replaceFirst r2 ':' '@' → r1 = r2 := by
  induction r1 with
  | nil => intro r2 _ _ hm1 _ _; simp at hm1
  | cons c cs ih =>
    intro r2 h1 h2 hm1 hm2 heq
    cases r2 with
    | nil => simp at hm2
    | cons d ds =>
      by_cases hc : c = ':'
      · by_cases hd : d = ':'
        · subst hc; subst hd
          simp [replaceFirst] at heq
          rw [heq]
        · subst hc
          have hd2 := (noAtBeforeColon_cons d ds h2 hd).1
          simp [replaceFirst, hd] at heq
          exact absurd heq.1.symm hd2
      · by_cases hd : d = ':'
        · subst hd
          have hc2 := (noAtBeforeColon_cons c cs h1 hc).1
          simp [replaceFirst, hc] at heq
          exact absurd heq.1 hc2
        · simp [replaceFirst, hc, hd] at heq
          obtain ⟨hcd, htl⟩ := heq
          have p1 := noAtBeforeColon_cons c cs h1 hc
          have p2 := noAtBeforeColon_cons d ds h2 hd
          have hm1b : ':' ∈ cs := by
            rcases List.mem_cons.mp hm1 with h0 | h0
            · exact absurd h0.symm hc
            · exact h0
          have hm2b : ':' ∈ ds := by
            rcases List.mem_cons.mp hm2 with h0 | h0
            · exact absurd h0.symm hd
            · exact h0
          rw [hcd, ih ds p1.2 p2.2 hm1b hm2b htl]

theorem replaceFirst_colon_roundtrip (r : List Char)
    (h : noAtBeforeColon r = true) (hm : ':' ∈ r) :
    replaceFirst (replaceFirst r ':' '@') '@' ':' = r := by
  induction r with
  | nil => simp at hm
  | cons c cs ih =>
    by_cases hc : c = ':'
    · subst hc
      simp [replaceFirst]
    · have p := noAtBeforeColon_cons c cs h hc
      have hmb : ':' ∈ cs := by
        rcases List.mem_cons.mp hm with h0 | h0
        · exact absurd h0.symm hc
        · exact h0
      simp [replaceFirst, hc, p.1]
      exact ih p.2 hmb

/-- C5 amended: the conversion is injective only among well-formed identifiers
that carry the same sigil and whose text before the first colon contains no
`@`; under the same restriction the identifier is recoverable from the output
given its sigil, by putting the sigil back and replacing the first `@` with a
colon. Identifiers differing only in the sigil collapse to one output. -/
theorem mxid_to_email_injective_on_same_sigil (sig : Char) (r1 r2 : List Char)
    (hs : sig ∈ sigils)
    (h1 : noAtBeforeColon r1 = true) (h2 : noAtBeforeColon r2 = true)
    (hm1 : ':' ∈ r1) (hm2 : ':' ∈ r2) :
    (mxid_to_email (sig :: r1) = mxid_to_email (sig :: r2) →
      sig :: r1 = sig :: r2) ∧
    (∀ out, mxid_to_email (sig :: r1) = Except.ok out →
      sig :: replaceFirst out '@' ':' = sig :: r1) := by
  have e1 : mxid_to_email (sig :: r1) = Except.ok (replaceFirst r1 ':' '@') := by
    simp [mxid_to_email, hs]
  have e2 : mxid_to_email (sig :: r2) = Except.ok (replaceFirst r2 ':' '@') := by
    simp [mxid_to_email, hs]
  constructor
  · intro heq
    rw [e1, e2] at heq
    have hre : replaceFirst r1 ':' '@' = replaceFirst r2 ':' '@' := by
      injection heq
    rw [replaceFirst_colon_inj r1 r2 h1 h2 hm1 hm2 hre]
  · intro out hout
    rw [e1] at hout
    have hoe : replaceFirst r1 ':' '@' = out := by injection hout
    rw [← hoe, replaceFirst_colon_roundtrip r1 h1 hm1]

/-- C5 witness: evaluation of the amended statement at the identifier
`"@a:b"`: the conversion outputs `"a@b"` and replacing the first `@` back
with a colon behind the sigil recovers the identifier. -/
theorem mxid_to_email_injective_on_same_sigil_witness :
    '@' :: replaceFirst ['a', '@', 'b'] '@' ':' = ['@', 'a', ':', 'b'] :=
  (mxid_to_email_injective_on_same_sigil '@' ['a', ':', 'b'] ['a', ':', 'b']
    (by decide) (by decide) (by decide) (by decide) (by decide)).2
    ['a', '@', 'b'] rfl
